import Mathlib

/-!
Verification of the MDAL TUFLOW FV driver and the generic dataset access
dispatcher, as a shallow embedding of "src/mdal/mdal.cpp" and
"src/mdal/frmts/mdal_tuflowfv.cpp".

Modelling conventions:
* machine integers are `Nat` and `Int`; the one place where C++ unsigned
  wrap-around matters (a `static_cast` of a possibly negative `int` to
  `size_t`) is modelled by an explicit `% 2 ^ 64`;
* `double` values are only ever copied by the code under study, never
  computed with, so the carrier of double buffers is `Int` (any type with
  decidable equality would do);
* a C++ accessor taking a raw output pointer is modelled as returning the
  pair of its `size_t` result and the list of values it writes to the
  buffer, in buffer order; an empty list means the buffer is untouched;
* the process-wide `sLastStatus` slot is modelled by an `Option MDAL_Status`
  component of the result: `some s` when the call sets the status, `none`
  when it does not.
-/

namespace MDALSpec

/-- The status taxonomy of the public API (subset used by the code under
study). Mirrors `MDAL_Status` in "mdal.h". -/
inductive MDAL_Status where
  | Err_NotFound
  | Err_IncompatibleMesh
  | Err_IncompatibleDataset
  | Err_InvalidData
  | Err_MissingDriver
  | Err_MissingDriverCapability
  deriving DecidableEq, Repr

/-- Data location tag of a dataset group. Mirrors `MDAL_DataLocation`. -/
inductive MDAL_DataLocation where
  | DataInvalidLocation
  | DataOnVertices2D
  | DataOnFaces2D
  | DataOnVolumes3D
  deriving DecidableEq, Repr

/-- The requested data kind of a windowed read. Mirrors `MDAL_DataType`. -/
inductive MDAL_DataType where
  | SCALAR_DOUBLE
  | VECTOR_2D_DOUBLE
  | ACTIVE_INTEGER
  | VERTICAL_LEVEL_COUNT_INTEGER
  | VERTICAL_LEVEL_DOUBLE
  | FACE_INDEX_TO_VOLUME_INDEX_INTEGER
  | SCALAR_VOLUMES_DOUBLE
  | VECTOR_2D_VOLUMES_DOUBLE
  deriving DecidableEq, Repr

/-- An opened NetCDF file (the Array Source). `arrId` resolves a variable
name to an identifier, negative when the variable is absent; `intArr` gives
the contents of an integer array variable; `dblArr` gives the contents of
one timestep slice of a double array variable. Mirrors the interface of
`MDAL::NetCDFFile` as used by the driver. -/
structure NetCDFFile where
  arrId : String → Int
  intArr : Int → List Int
  dblArr : Int → Nat → List Int

/-- `NetCDFFile::readIntArr( id, start, count )`: a window of an integer
array variable. -/
def NetCDFFile.readIntArr (f : NetCDFFile) (ncid : Int) (start count : Nat) : List Int :=
  ((f.intArr ncid).drop start).take count

/-- `NetCDFFile::readDoubleArr( id, ts, start, 1, count )`: a window of one
timestep slice of a double array variable. -/
def NetCDFFile.readDoubleArrTs (f : NetCDFFile) (ncid : Int) (ts start count : Nat) : List Int :=
  ((f.dblArr ncid ts).drop start).take count

/-- One timestep of a TUFLOW FV 3D dataset. Mirrors the state of
`MDAL::TuflowFVDataset3D` ("mdal_tuflowfv.cpp", constructor at line 14):
the x and y value array identifiers, the timestep count, the counts coming
from the `Dataset3D` base (`volumesCount()`) and the driver dimensions, the
current timestep index, and the array identifiers resolved by the
constructor from the file (`NL`, `layerface_Z`, `stat`, `idx2`, `idx3`). -/
structure TuflowFVDataset3D where
  mNcidX : Int
  mNcidY : Int
  mTimesteps : Nat
  mVolumesCount : Nat
  mFacesCount : Nat
  mLevelFacesCount : Nat
  mTs : Nat
  mNcidVerticalLevels : Int
  mNcidVerticalLevelsZ : Int
  mNcidActive2D : Int
  mNcid3DTo2D : Int
  mNcid2DTo3D : Int
  mNcFile : NetCDFFile

/-- `TuflowFVDataset3D::verticalLevelCountData` (lines 46-61): per-face
vertical level counts. -/
def TuflowFVDataset3D.verticalLevelCountData (d : TuflowFVDataset3D)
    (indexStart count : Nat) : Nat × List Int :=
  if count < 1 ∨ indexStart ≥ d.mFacesCount then (0, [])
  else if d.mNcidVerticalLevels < 0 then (0, [])
  else
    let copyValues := min (d.mFacesCount - indexStart) count
    (copyValues, d.mNcFile.readIntArr d.mNcidVerticalLevels indexStart copyValues)

/-- `TuflowFVDataset3D::verticalLevelData` (lines 63-82): per-layer-interface
geometry for the current timestep. -/
def TuflowFVDataset3D.verticalLevelData (d : TuflowFVDataset3D)
    (indexStart count : Nat) : Nat × List Int :=
  if count < 1 ∨ indexStart ≥ d.mLevelFacesCount then (0, [])
  else if d.mTs ≥ d.mTimesteps then (0, [])
  else if d.mNcidVerticalLevelsZ < 0 then (0, [])
  else
    let copyValues := min (d.mLevelFacesCount - indexStart) count
    (copyValues, d.mNcFile.readDoubleArrTs d.mNcidVerticalLevelsZ d.mTs indexStart copyValues)

/-- `TuflowFVDataset3D::faceToVolumeData` (lines 84-104): the on-disk
1-based face-to-volume array, each value decremented by 1 before it is
returned. -/
def TuflowFVDataset3D.faceToVolumeData (d : TuflowFVDataset3D)
    (indexStart count : Nat) : Nat × List Int :=
  if count < 1 ∨ indexStart ≥ d.mFacesCount then (0, [])
  else if d.mNcid2DTo3D < 0 then (0, [])
  else
    let copyValues := min (d.mFacesCount - indexStart) count
    let vals := d.mNcFile.readIntArr d.mNcid2DTo3D indexStart copyValues
    (copyValues, vals.map (fun element => element - 1))

/-- `TuflowFVDataset3D::scalarVolumesData` (lines 106-123): per-volume
scalar values of the current timestep. -/
def TuflowFVDataset3D.scalarVolumesData (d : TuflowFVDataset3D)
    (indexStart count : Nat) : Nat × List Int :=
  if count < 1 ∨ indexStart ≥ d.mVolumesCount then (0, [])
  else if d.mTs ≥ d.mTimesteps then (0, [])
  else
    let copyValues := min (d.mVolumesCount - indexStart) count
    (copyValues, d.mNcFile.readDoubleArrTs d.mNcidX d.mTs indexStart copyValues)

/-- Interleaving of the x and y value lists: models the loop writing
`buffer[2 * i]` and `buffer[2 * i + 1]` (lines 148-152). -/
def interleave : List Int → List Int → List Int
  | x :: xs, y :: ys => x :: y :: interleave xs ys
  | _, _ => []

/-- `TuflowFVDataset3D::vectorVolumesData` (lines 125-154): per-volume
(x, y) vector values of the current timestep. The returned `size_t` counts
volumes, while the buffer receives two doubles per counted volume. -/
def TuflowFVDataset3D.vectorVolumesData (d : TuflowFVDataset3D)
    (indexStart count : Nat) : Nat × List Int :=
  if count < 1 ∨ indexStart ≥ d.mVolumesCount then (0, [])
  else if d.mTs ≥ d.mTimesteps then (0, [])
  else
    let copyValues := min (d.mVolumesCount - indexStart) count
    let valsX := d.mNcFile.readDoubleArrTs d.mNcidX d.mTs indexStart copyValues
    let valsY := d.mNcFile.readDoubleArrTs d.mNcidY d.mTs indexStart copyValues
    (copyValues, interleave valsX valsY)

/-- The value a 4-byte `int` holds after `memset` fills each of its bytes
with `1`: `0x01010101`. -/
def memsetOneInt : Int := 16843009

/-- `TuflowFVDataset3D::activeVolumesData` (lines 156-162): marked `TODO`
in the source; ignores `indexStart` and every on-disk array, fills `count`
buffer entries bytewise with `1` and returns `count`. -/
def TuflowFVDataset3D.activeVolumesData (_d : TuflowFVDataset3D)
    (_indexStart count : Nat) : Nat × List Int :=
  (count, List.replicate count memsetOneInt)

/-- The view of an `MDAL::Dataset` that `MDAL_D_data` ("mdal.cpp", lines
881-1032) uses: the owning group flags, the mesh face count, the value,
volume and capability queries, and the eight virtual windowed accessors.
Each accessor returns its `size_t` result and the values it writes. -/
structure Dataset where
  groupIsScalar : Bool
  groupLocation : MDAL_DataLocation
  meshFacesCount : Nat
  valuesCount : Nat
  volumesCount : Nat
  supportsActiveFlag : Bool
  scalarData : Nat → Nat → Nat × List Int
  vectorData : Nat → Nat → Nat × List Int
  activeData : Nat → Nat → Nat × List Int
  verticalLevelCountData : Nat → Nat → Nat × List Int
  verticalLevelData : Nat → Nat → Nat × List Int
  faceToVolumeData : Nat → Nat → Nat × List Int
  scalarVolumesData : Nat → Nat → Nat × List Int
  vectorVolumesData : Nat → Nat → Nat × List Int

/-- Result of one `MDAL_D_data` call: the returned element count, the
status the call sets (if any), and the buffer contents written. -/
structure DDataResult where
  ret : Int
  status : Option MDAL_Status
  writes : List Int
  deriving DecidableEq, Repr

/-- The accessor `MDAL_D_data` delegates to for each data kind (the second
`switch` of "mdal.cpp", lines 1003-1029). -/
def delegate (d : Dataset) (dataType : MDAL_DataType) (indexStart count : Nat) :
    Nat × List Int :=
  match dataType with
  | .SCALAR_DOUBLE => d.scalarData indexStart count
  | .VECTOR_2D_DOUBLE => d.vectorData indexStart count
  | .ACTIVE_INTEGER => d.activeData indexStart count
  | .VERTICAL_LEVEL_COUNT_INTEGER => d.verticalLevelCountData indexStart count
  | .VERTICAL_LEVEL_DOUBLE => d.verticalLevelData indexStart count
  | .FACE_INDEX_TO_VOLUME_INDEX_INTEGER => d.faceToVolumeData indexStart count
  | .SCALAR_VOLUMES_DOUBLE => d.scalarVolumesData indexStart count
  | .VECTOR_2D_VOLUMES_DOUBLE => d.vectorVolumesData indexStart count

/-- The first `switch` of `MDAL_D_data` ("mdal.cpp", lines 900-986): the
per-kind compatibility checks together with the computation of the expected
total value count. `none` models an early `return 0` with
`Err_IncompatibleDataset`. -/
def dispatchValuesCount (d : Dataset) (dataType : MDAL_DataType) : Option Nat :=
  match dataType with
  | .SCALAR_DOUBLE =>
    if ¬ d.groupIsScalar then none
    else if d.groupLocation ≠ .DataOnVertices2D ∧ d.groupLocation ≠ .DataOnFaces2D then none
    else some d.valuesCount
  | .VECTOR_2D_DOUBLE =>
    if d.groupIsScalar then none
    else if d.groupLocation ≠ .DataOnVertices2D ∧ d.groupLocation ≠ .DataOnFaces2D then none
    else some d.valuesCount
  | .ACTIVE_INTEGER =>
    if ¬ d.supportsActiveFlag then none
    else some d.meshFacesCount
  | .VERTICAL_LEVEL_COUNT_INTEGER =>
    if d.groupLocation ≠ .DataOnVolumes3D then none
    else some d.meshFacesCount
  | .VERTICAL_LEVEL_DOUBLE =>
    if d.groupLocation ≠ .DataOnVolumes3D then none
    else some (d.meshFacesCount + d.volumesCount)
  | .FACE_INDEX_TO_VOLUME_INDEX_INTEGER =>
    if d.groupLocation ≠ .DataOnVolumes3D then none
    else some d.meshFacesCount
  | .SCALAR_VOLUMES_DOUBLE =>
    if d.groupLocation ≠ .DataOnVolumes3D then none
    else if ¬ d.groupIsScalar then none
    else some d.volumesCount
  | .VECTOR_2D_VOLUMES_DOUBLE =>
    if d.groupLocation ≠ .DataOnVolumes3D then none
    else if d.groupIsScalar then none
    else some (2 * d.volumesCount)

/-- `MDAL_D_data` ("mdal.cpp", lines 881-1032): per-kind compatibility
checks, then the two window bound checks, then delegation to the matching
accessor. -/
def MDAL_D_data (d : Dataset) (indexStart count : Nat)
    (dataType : MDAL_DataType) : DDataResult :=
  match dispatchValuesCount d dataType with
  | none => ⟨0, some .Err_IncompatibleDataset, []⟩
  | some valuesCount =>
    if valuesCount ≤ indexStart then ⟨0, some .Err_IncompatibleDataset, []⟩
    else if valuesCount < indexStart + count then ⟨0, some .Err_IncompatibleDataset, []⟩
    else
      let r := delegate d dataType indexStart count
      ⟨(r.1 : Int), none, r.2⟩

/-- The scalar/vector expectation each kind carries according to the claim:
`some true` expects a scalar group, `some false` a vector group, `none` no
expectation. -/
def claimKindScalar : MDAL_DataType → Option Bool
  | .SCALAR_DOUBLE => some true
  | .VECTOR_2D_DOUBLE => some false
  | .ACTIVE_INTEGER => none
  | .VERTICAL_LEVEL_COUNT_INTEGER => none
  | .VERTICAL_LEVEL_DOUBLE => none
  | .FACE_INDEX_TO_VOLUME_INDEX_INTEGER => none
  | .SCALAR_VOLUMES_DOUBLE => some true
  | .VECTOR_2D_VOLUMES_DOUBLE => some false

/-- Whether the required data location of a kind, according to the claim,
agrees with the group location: the 2D kinds require a 2D location, the
3D-only kinds require the volumes location, and the active-flags kind
carries no location requirement in the claim. -/
def claimLocationOk : MDAL_DataType → MDAL_DataLocation → Bool
  | .SCALAR_DOUBLE, loc => loc = .DataOnVertices2D ∨ loc = .DataOnFaces2D
  | .VECTOR_2D_DOUBLE, loc => loc = .DataOnVertices2D ∨ loc = .DataOnFaces2D
  | .ACTIVE_INTEGER, _ => true
  | .VERTICAL_LEVEL_COUNT_INTEGER, loc => loc = .DataOnVolumes3D
  | .VERTICAL_LEVEL_DOUBLE, loc => loc = .DataOnVolumes3D
  | .FACE_INDEX_TO_VOLUME_INDEX_INTEGER, loc => loc = .DataOnVolumes3D
  | .SCALAR_VOLUMES_DOUBLE, loc => loc = .DataOnVolumes3D
  | .VECTOR_2D_VOLUMES_DOUBLE, loc => loc = .DataOnVolumes3D

/-- The expected total value count of each kind, in the words of the claim:
the dataset value count for 2D kinds; the mesh face count for active-flags,
vertical-level-counts and face-to-volume; face count plus volumes count
for vertical-level-geometry; the volumes count for scalar-on-volumes and
twice the volumes count for vector-on-volumes. -/
def claimTotal (d : Dataset) : MDAL_DataType → Nat
  | .SCALAR_DOUBLE => d.valuesCount
  | .VECTOR_2D_DOUBLE => d.valuesCount
  | .ACTIVE_INTEGER => d.meshFacesCount
  | .VERTICAL_LEVEL_COUNT_INTEGER => d.meshFacesCount
  | .VERTICAL_LEVEL_DOUBLE => d.meshFacesCount + d.volumesCount
  | .FACE_INDEX_TO_VOLUME_INDEX_INTEGER => d.meshFacesCount
  | .SCALAR_VOLUMES_DOUBLE => d.volumesCount
  | .VECTOR_2D_VOLUMES_DOUBLE => 2 * d.volumesCount

/-- The rejection condition exactly as the claim states it: scalar/vector
expectation disagreement, location disagreement, or a window outside the
expected total. -/
def claimReject (d : Dataset) (dataType : MDAL_DataType) (indexStart count : Nat) : Bool :=
  (match claimKindScalar dataType with
   | none => false
   | some b => b != d.groupIsScalar) ||
  ! claimLocationOk dataType d.groupLocation ||
  decide (indexStart ≥ claimTotal d dataType) ||
  decide (indexStart + count > claimTotal d dataType)

/-- The amended rejection condition: the condition of the claim, plus the
one check the claim omits — the active-flags kind is also rejected when the
dataset lacks the active-flag capability. -/
def amendedReject (d : Dataset) (dataType : MDAL_DataType) (indexStart count : Nat) : Bool :=
  claimReject d dataType indexStart count ||
  (decide (dataType = .ACTIVE_INTEGER) && ! d.supportsActiveFlag)

/-- The `Dataset` view of a `TuflowFVDataset3D`. A TUFLOW FV 3D dataset
lives in a group located on volumes; whether the group is vector-valued
depends on the variable pair it was created from, so the flag is a
parameter. The `Dataset3D` base holds the same `mVolumesCount` that the
accessors use, the mesh face count equals the `Face2D` dimension the driver
passed to the constructor, and a `Dataset3D` does not support the 2D
active-flag capability. The three 2D accessors are never reached for this
variant; they are modelled as the "unsupported, 0 copied" contract. -/
def TuflowFVDataset3D.toDataset (d : TuflowFVDataset3D) (groupIsScalar : Bool) : Dataset where
  groupIsScalar := groupIsScalar
  groupLocation := .DataOnVolumes3D
  meshFacesCount := d.mFacesCount
  valuesCount := d.mVolumesCount
  volumesCount := d.mVolumesCount
  supportsActiveFlag := false
  scalarData := fun _ _ => (0, [])
  vectorData := fun _ _ => (0, [])
  activeData := d.activeVolumesData
  verticalLevelCountData := d.verticalLevelCountData
  verticalLevelData := d.verticalLevelData
  faceToVolumeData := d.faceToVolumeData
  scalarVolumesData := d.scalarVolumesData
  vectorVolumesData := d.vectorVolumesData

/-- Group statistics: the cached minimum/maximum pair. -/
structure Statistics where
  minimum : Int
  maximum : Int
  deriving DecidableEq, Repr

/-- The state of an `MDAL::DatasetGroup` that `MDAL_G_addDataset` and
`MDAL_G_closeEditMode` ("mdal.cpp", lines 652-759) use. Datasets are
opaque handles, so the owned dataset list is a list of handle values.
The field updates performed by `setStatistics` and `stopEditing` are
modelled from the spec (the `DatasetGroup` methods are not under "src/"):
they set the statistics field and clear the edit-mode flag. -/
structure DatasetGroup where
  isScalar : Bool
  dataLocation : MDAL_DataLocation
  isInEditMode : Bool
  datasets : List Nat
  statistics : Statistics
  driverName : String
  deriving DecidableEq, Repr

/-- A registered driver, as consumed by the two edit-mode entry points:
its per-location write capability, its dataset factory (returning the new
dataset list of the group), and its persist operation (returning the error
flag). Modelled from the spec: `MDAL::Driver` is not under "src/". -/
structure Driver where
  hasWriteDatasetCapability : MDAL_DataLocation → Bool
  createDataset : DatasetGroup → Int → List Int → Option (List Int) → List Nat
  persist : DatasetGroup → Bool

/-- `MDAL_G_addDataset` ("mdal.cpp", lines 652-710) for a non-null group
handle. `drivers` models `DriverManager::instance().driver( name )`;
`values` and `active` are `none` for null pointers. Returns the handle of
the appended dataset (its index), the status the call sets, and the
resulting group state. -/
def MDAL_G_addDataset (drivers : String → Option Driver) (g : DatasetGroup)
    (time : Int) (values : Option (List Int)) (active : Option (List Int)) :
    Option Nat × Option MDAL_Status × DatasetGroup :=
  match values with
  | none => (none, some .Err_InvalidData, g)
  | some vs =>
    if ¬ g.isInEditMode then (none, some .Err_IncompatibleDataset, g)
    else
      match drivers g.driverName with
      | none => (none, some .Err_MissingDriver, g)
      | some dr =>
        if ¬ dr.hasWriteDatasetCapability g.dataLocation then
          (none, some .Err_MissingDriverCapability, g)
        else if g.dataLocation = .DataOnVolumes3D then
          (none, some .Err_MissingDriverCapability, g)
        else if active.isSome ∧ g.dataLocation ≠ .DataOnVertices2D then
          (none, some .Err_IncompatibleDataset, g)
        else
          let index := g.datasets.length
          let newDatasets := dr.createDataset g time vs active
          let gNew := { g with datasets := newDatasets }
          if index < newDatasets.length then (some index, none, gNew)
          else (none, none, gNew)

/-- `MDAL_G_closeEditMode` ("mdal.cpp", lines 723-759) for a non-null group
handle. `calcStats` models the external `MDAL::calculateStatistics` of the
Statistics Calculator (modelled from the spec, not under "src/"). Returns
the resulting group state, the status the call sets, and whether the
driver persist operation was invoked. -/
def MDAL_G_closeEditMode (drivers : String → Option Driver)
    (calcStats : DatasetGroup → Statistics) (g : DatasetGroup) :
    DatasetGroup × Option MDAL_Status × Bool :=
  if ¬ g.isInEditMode then (g, none, false)
  else
    let gStats := { g with statistics := calcStats g }
    let gClosed := { gStats with isInEditMode := false }
    match drivers g.driverName with
    | none => (gClosed, some .Err_MissingDriver, false)
    | some dr =>
      if ¬ dr.hasWriteDatasetCapability gClosed.dataLocation then
        (gClosed, some .Err_MissingDriverCapability, false)
      else
        (gClosed, if dr.persist gClosed then some .Err_InvalidData else none, true)

/-- `*std::max_element( vals.begin(), vals.end() )` for the nonempty lists
the chunked scan produces; the empty case never occurs and returns a junk
value. -/
def listMaxElem : List Int → Int
  | [] => 0
  | x :: xs => xs.foldl max x

/-- The chunked scan loop of `DriverTuflowFV::calculateMaximumLevelCount`
("mdal_tuflowfv.cpp", lines 278-290): repeatedly reads windows of at most
1000 entries of the layer-count array, folding the running maximum.
Returns the final maximum and the list of `( indexStart, copyValues )`
read requests issued, in order. -/
def calcMaxLoop (file : NetCDFFile) (ncid : Int) (facesCount : Nat)
    (indexStart : Nat) (acc : Int) : Int × List (Nat × Nat) :=
  if _h : min (facesCount - indexStart) 1000 = 0 then (acc, [])
  else
    let copyValues := min (facesCount - indexStart) 1000
    let vals := file.readIntArr ncid indexStart copyValues
    let rest := calcMaxLoop file ncid facesCount (indexStart + copyValues)
      (max acc (listMaxElem vals))
    (rest.1, (indexStart, copyValues) :: rest.2)
termination_by facesCount - indexStart
decreasing_by omega

/-- The state of `DriverTuflowFV` used by the maximum-levels-count
computation: the memoized value (negative is the "not yet computed"
sentinel) together with the discovered `Face2D` dimension and the open
file. -/
structure DriverTuflowFV where
  mMaximumLevelsCount : Int
  facesCount : Nat
  mNcFile : NetCDFFile

/-- `DriverTuflowFV::calculateMaximumLevelCount` ("mdal_tuflowfv.cpp",
lines 266-292). Returns the resulting driver state and the list of read
requests issued against the layer-count array. -/
def calculateMaximumLevelCount (st : DriverTuflowFV) :
    DriverTuflowFV × List (Nat × Nat) :=
  if st.mMaximumLevelsCount < 0 then
    let ncidVerticalLevels := st.mNcFile.arrId "NL"
    if ncidVerticalLevels < 0 then ({ st with mMaximumLevelsCount := 0 }, [])
    else
      let r := calcMaxLoop st.mNcFile ncidVerticalLevels st.facesCount 0 0
      ({ st with mMaximumLevelsCount := r.1 }, r.2)
  else (st, [])

/-- `static_cast<size_t>` of a C++ `int`: reduction modulo `2 ^ 64`, so a
negative value becomes a huge unsigned one. -/
def sizeTCast (v : Int) : Nat :=
  (v % (2 ^ 64 : Int)).toNat

/-- The inner loop of `DriverTuflowFV::populateFaces` ("mdal_tuflowfv.cpp",
lines 255-261) over the first `nVertices` slots of one face window:
each on-disk connectivity value is decremented by 1 and cast to `size_t`,
and the `assert( val < vertexCount )` is modelled as a fatal `none`. -/
def buildFaceIdxs (vertexCount : Nat) : List Int → Option (List Nat)
  | [] => some []
  | v :: rest =>
    let val := sizeTCast (v - 1)
    if val < vertexCount then (buildFaceIdxs vertexCount rest).map (fun idxs => val :: idxs)
    else none

/-- The per-face loop of `DriverTuflowFV::populateFaces` (lines 250-263),
walking the per-face vertex-count list; `i` is the face index used to
locate the stride window inside the connectivity array. -/
def populateFacesAux (vertexCount verticesInFace : Nat) (conn : List Int) :
    Nat → List Int → Option (List (List Nat))
  | _, [] => some []
  | i, cnt :: restCounts =>
    let nVertices := sizeTCast cnt
    let slots := (conn.drop (verticesInFace * i)).take nVertices
    match buildFaceIdxs vertexCount slots with
    | none => none
    | some face =>
      (populateFacesAux vertexCount verticesInFace conn (i + 1) restCounts).map
        (fun faces => face :: faces)

/-- `DriverTuflowFV::populateFaces` ("mdal_tuflowfv.cpp", lines 238-264):
from the discovered dimensions and the `cell_node` / `cell_Nvert` arrays,
the ordered list of faces as 0-based vertex index lists, or `none` when an
out-of-range index makes the load fatal. -/
def populateFaces (vertexCount faceCount verticesInFace : Nat)
    (conn counts : List Int) : Option (List (List Nat)) :=
  populateFacesAux vertexCount verticesInFace conn 0 (counts.take faceCount)

/-- The claim-side description of one built face: the first N slots of the
stride window of face `i` (N = the per-face vertex count entry), each
converted from the 1-based on-disk index to the 0-based in-memory index. -/
def claimFaceWindow (verticesInFace : Nat) (conn : List Int) (i : Nat) (cnt : Int) : List Int :=
  (conn.drop (verticesInFace * i)).take (sizeTCast cnt)

/-- The claim-side expected output of the topology builder when every index
is in range. -/
def claimFacesAux (verticesInFace : Nat) (conn : List Int) :
    Nat → List Int → List (List Nat)
  | _, [] => []
  | i, cnt :: restCounts =>
    (claimFaceWindow verticesInFace conn i cnt).map (fun v => (v - 1).toNat) ::
      claimFacesAux verticesInFace conn (i + 1) restCounts

/-- A C++ `std::string` is embedded as its character list. -/
abbrev CppString := List Char

/-- The character list of a string literal. -/
def strLit (s : String) : CppString := s.data

/-- Modelled from the spec: `MDAL::startsWith` (in "mdal_utils.cpp", not
under "src/") decides whether the second string is a prefix of the first. -/
def mdalStartsWith (s pre : CppString) : Bool :=
  pre.isPrefixOf s

/-- Modelled from the spec: `MDAL::replace` with an empty replacement (in
"mdal_utils.cpp", not under "src/"), as used by the naming resolver only
under a `startsWith` guard; the spec describes the combination as stripping
the prefix from the label. -/
def mdalStripPre (s pre : CppString) : CppString :=
  if pre.isPrefixOf s then s.drop pre.length else s

/-- `DriverTuflowFV::parseNetCDFVariableMetadata` ("mdal_tuflowfv.cpp",
lines 327-367): maps the on-disk display label (the `long_name` attribute)
and the raw variable name to the triple (group name, is_vector, is_x). -/
def parseNetCDFVariableMetadata (variableName longName : CppString) :
    CppString × Bool × Bool :=
  if longName = [] then (variableName, false, true)
  else
    let n1 := if mdalStartsWith longName (strLit "maximum value of ") then
      mdalStripPre longName (strLit "maximum value of ") ++ strLit "/Maximums" else longName
    let n2 := if mdalStartsWith n1 (strLit "minimum value of ") then
      mdalStripPre n1 (strLit "minimum value of ") ++ strLit "/Minimums" else n1
    let n3 := if mdalStartsWith n2 (strLit "time at maximum value of ") then
      mdalStripPre n2 (strLit "time at maximum value of ") ++ strLit "/Time at Maximums" else n2
    let n4 := if mdalStartsWith n3 (strLit "time at minimum value of ") then
      mdalStripPre n3 (strLit "time at minimum value of ") ++ strLit "/Time at Minimums" else n3
    if mdalStartsWith n4 (strLit "x_") then (mdalStripPre n4 (strLit "x_"), true, true)
    else if mdalStartsWith n4 (strLit "y_") then (mdalStripPre n4 (strLit "y_"), true, false)
    else (n4, false, true)

/-- The four statistic rules of the claim, in order: a label prefix to
strip paired with the group-name suffix to append. -/
def statRules : List (CppString × CppString) :=
  [(strLit "maximum value of ", strLit "/Maximums"),
   (strLit "minimum value of ", strLit "/Minimums"),
   (strLit "time at maximum value of ", strLit "/Time at Maximums"),
   (strLit "time at minimum value of ", strLit "/Time at Minimums")]

/-- Application of one statistic rule in the words of the claim: when the
label starts with the rule prefix, the prefix is stripped and the suffix
appended; otherwise the label is unchanged. -/
def applyStatRule (s : CppString) (rule : CppString × CppString) : CppString :=
  if rule.1.isPrefixOf s then s.drop rule.1.length ++ rule.2 else s

/-- The Variable Naming Resolver in the words of the claim: an empty label
falls back to the raw variable identifier as a scalar group name; otherwise
the four statistic rules are applied in sequence, and then a remainder
starting with `x_` is vector/x-component with the prefix dropped, one
starting with `y_` is vector/y-component with the prefix dropped, and
anything else is a scalar group with that name. -/
def claimResolveLabel (variableName longName : CppString) : CppString × Bool × Bool :=
  if longName = [] then (variableName, false, true)
  else
    let t := statRules.foldl applyStatRule longName
    if (strLit "x_").isPrefixOf t then (t.drop (strLit "x_").length, true, true)
    else if (strLit "y_").isPrefixOf t then (t.drop (strLit "y_").length, true, false)
    else (t, false, true)

/-!
Concrete fixtures. `ncFile3` holds a TUFLOW FV layering scenario with
face count 3, layer counts `[2, 1, 3]`, volumes count 6 and the on-disk
1-based index array `[1, 1, 2, 3, 3, 3]` (variable ids: 1 = `NL`,
2 = `idx3`, 3 = x values, 4 = y values, 5 = `layerface_Z`, 6 = `stat`). -/

/-- A concrete opened file for the layering scenario of the claims. -/
def ncFile3 : NetCDFFile where
  arrId := fun s => if s = "NL" then 1 else -1
  intArr := fun i =>
    if i = 1 then [2, 1, 3]
    else if i = 2 then [1, 1, 2, 3, 3, 3]
    else []
  dblArr := fun i ts =>
    if ts = 0 then
      if i = 3 then [10, 20, 30, 40, 50, 60]
      else if i = 4 then [11, 21, 31, 41, 51, 61]
      else if i = 5 then [1, 2, 3, 4, 5, 6, 7, 8, 9]
      else []
    else []

/-- The concrete 3D dataset over `ncFile3`: 3 faces, 6 volumes, 9 stacked
layer interfaces, one timestep, current timestep 0. -/
def cds3 : TuflowFVDataset3D where
  mNcidX := 3
  mNcidY := 4
  mTimesteps := 1
  mVolumesCount := 6
  mFacesCount := 3
  mLevelFacesCount := 9
  mTs := 0
  mNcidVerticalLevels := 1
  mNcidVerticalLevelsZ := 5
  mNcidActive2D := 6
  mNcid3DTo2D := -1
  mNcid2DTo3D := 2
  mNcFile := ncFile3

/-- A dataset with 2 volumes, present active array and in-range timestep,
used against the pagination claim for the active-volume accessor. -/
def cds2 : TuflowFVDataset3D :=
  { cds3 with mVolumesCount := 2 }

/-- The dataset of the layering scenario with its timestep index out of
range. -/
def cds8 : TuflowFVDataset3D :=
  { cds3 with mTs := 7 }

/-- The dataset of the layering scenario with every optional layering
array absent (negative identifiers). -/
def cdsAbsent : TuflowFVDataset3D :=
  { cds3 with mNcidVerticalLevels := -1, mNcidVerticalLevelsZ := -1, mNcid2DTo3D := -1 }

/-- A dataset with a single volume, used at the window edge of the
vector-on-volumes kind. -/
def cds10 : TuflowFVDataset3D :=
  { cds3 with mVolumesCount := 1 }

/-- A 2D dataset without the active-flag capability but with a working
active accessor, against the dispatcher claim: every condition the claim
lists holds for the window `( 0, 1 )`, yet the dispatcher rejects. -/
def cdActive : Dataset where
  groupIsScalar := true
  groupLocation := .DataOnVertices2D
  meshFacesCount := 3
  valuesCount := 5
  volumesCount := 0
  supportsActiveFlag := false
  scalarData := fun _ _ => (0, [])
  vectorData := fun _ _ => (0, [])
  activeData := fun _ _ => (1, [7])
  verticalLevelCountData := fun _ _ => (0, [])
  verticalLevelData := fun _ _ => (0, [])
  faceToVolumeData := fun _ _ => (0, [])
  scalarVolumesData := fun _ _ => (0, [])
  vectorVolumesData := fun _ _ => (0, [])

/-- The driver state of the layering scenario before the first
maximum-levels-count computation: sentinel value `-1`, 3 faces. -/
def st6 : DriverTuflowFV where
  mMaximumLevelsCount := -1
  facesCount := 3
  mNcFile := ncFile3

/-- A registered driver with full write capability whose dataset factory
appends one dataset and whose persist operation succeeds. -/
def drv0 : Driver where
  hasWriteDatasetCapability := fun _ => true
  createDataset := fun g _ _ _ => g.datasets ++ [99]
  persist := fun _ => false

/-- A driver registry resolving every name to `drv0`. -/
def drivers0 : String → Option Driver :=
  fun _ => some drv0

/-- A statistics computation that depends on the group state. -/
def calcStats0 : DatasetGroup → Statistics :=
  fun g => ⟨0, g.datasets.length⟩

/-- A dataset group in edit mode holding two datasets. -/
def g0 : DatasetGroup where
  isScalar := true
  dataLocation := .DataOnVertices2D
  isInEditMode := true
  datasets := [0, 1]
  statistics := ⟨5, 5⟩
  driverName := "TEST"

/-- The group of the scenario outside edit mode. -/
def g0Closed : DatasetGroup :=
  { g0 with isInEditMode := false }

/-! Helper lemmas. -/

theorem foldl_max_exch (xs : List Int) : ∀ (a b : Int),
    xs.foldl max (max a b) = max a (xs.foldl max b) := by
  induction xs with
  | nil => intro a b; rfl
  | cons c xs ih =>
    intro a b
    show xs.foldl max (max (max a b) c) = max a (xs.foldl max (max b c))
    rw [max_assoc, ih]

theorem foldl_max_of_ne_nil (l : List Int) (acc : Int) (h : l ≠ []) :
    l.foldl max acc = max acc (listMaxElem l) := by
  cases l with
  | nil => exact absurd rfl h
  | cons x xs =>
    show xs.foldl max (max acc x) = max acc (xs.foldl max x)
    exact foldl_max_exch xs acc x

theorem le_foldl_max (l : List Int) : ∀ (acc : Int), acc ≤ l.foldl max acc := by
  induction l with
  | nil => intro acc; exact le_refl acc
  | cons x xs ih =>
    intro acc
    exact le_trans (le_max_left acc x) (ih (max acc x))

theorem mem_le_foldl_max (l : List Int) : ∀ (acc e : Int), e ∈ l → e ≤ l.foldl max acc := by
  induction l with
  | nil => intro acc e he; cases he
  | cons x xs ih =>
    intro acc e he
    rcases List.mem_cons.mp he with h | h
    · subst h
      exact le_trans (le_max_right acc e) (le_foldl_max xs (max acc e))
    · exact ih (max acc x) e h

theorem foldl_max_eq_or_mem (l : List Int) : ∀ (acc : Int),
    l.foldl max acc = acc ∨ l.foldl max acc ∈ l := by
  induction l with
  | nil => intro acc; exact Or.inl rfl
  | cons x xs ih =>
    intro acc
    show xs.foldl max (max acc x) = acc ∨ xs.foldl max (max acc x) ∈ x :: xs
    rcases ih (max acc x) with h | h
    · rcases max_choice acc x with hm | hm
      · exact Or.inl (by rw [h, hm])
      · exact Or.inr (by rw [h, hm]; exact List.mem_cons_self x xs)
    · exact Or.inr (List.mem_cons_of_mem x h)

theorem interleave_length (xs : List Int) : ∀ (ys : List Int), xs.length = ys.length →
    (interleave xs ys).length = 2 * xs.length := by
  induction xs with
  | nil =>
    intro ys _
    simp [interleave]
  | cons x xs ih =>
    intro ys hlen
    cases ys with
    | nil => simp at hlen
    | cons y ys =>
      simp only [interleave, List.length_cons] at hlen ⊢
      rw [ih ys (by omega)]
      omega

theorem calcMaxLoop_fst (file : NetCDFFile) (ncid : Int) (n : Nat)
    (hlen : (file.intArr ncid).length = n) :
    ∀ (k idx : Nat) (acc : Int), n - idx ≤ k →
      (calcMaxLoop file ncid n idx acc).1 = ((file.intArr ncid).drop idx).foldl max acc := by
  intro k
  induction k with
  | zero =>
    intro idx acc h
    rw [calcMaxLoop]
    rw [dif_pos (by omega : min (n - idx) 1000 = 0)]
    rw [List.drop_eq_nil_of_le (by omega)]
    rfl
  | succ k ih =>
    intro idx acc h
    rw [calcMaxLoop]
    by_cases h0 : min (n - idx) 1000 = 0
    · rw [dif_pos h0]
      rw [List.drop_eq_nil_of_le (by omega)]
      rfl
    · rw [dif_neg h0]
      simp only [NetCDFFile.readIntArr]
      rw [ih (idx + min (n - idx) 1000) _ (by omega)]
      have harr : ((file.intArr ncid).drop idx).length = n - idx := by
        rw [List.length_drop, hlen]
      have hchunk : ((file.intArr ncid).drop idx).take (min (n - idx) 1000) ≠ [] := by
        apply List.ne_nil_of_length_pos
        rw [List.length_take, harr]
        omega
      rw [← foldl_max_of_ne_nil _ _ hchunk]
      have hsplit : (file.intArr ncid).drop idx =
          ((file.intArr ncid).drop idx).take (min (n - idx) 1000) ++
            (file.intArr ncid).drop (idx + min (n - idx) 1000) := by
        conv_lhs => rw [← List.take_append_drop (min (n - idx) 1000) ((file.intArr ncid).drop idx)]
        rw [List.drop_drop, Nat.add_comm]
      conv_rhs => rw [hsplit]
      rw [List.foldl_append]

theorem calcMaxLoop_le (file : NetCDFFile) (ncid : Int) (n : Nat) :
    ∀ (k idx : Nat) (acc : Int), n - idx ≤ k →
      acc ≤ (calcMaxLoop file ncid n idx acc).1 := by
  intro k
  induction k with
  | zero =>
    intro idx acc h
    rw [calcMaxLoop, dif_pos (by omega : min (n - idx) 1000 = 0)]
  | succ k ih =>
    intro idx acc h
    rw [calcMaxLoop]
    by_cases h0 : min (n - idx) 1000 = 0
    · rw [dif_pos h0]
    · rw [dif_neg h0]
      exact le_trans (le_max_left acc _) (ih (idx + min (n - idx) 1000) _ (by omega))

theorem calcMaxLoop_reads (file : NetCDFFile) (ncid : Int) (n : Nat) :
    ∀ (k idx : Nat) (acc : Int), n - idx ≤ k →
      ∀ p ∈ (calcMaxLoop file ncid n idx acc).2, p.2 ≤ 1000 := by
  intro k
  induction k with
  | zero =>
    intro idx acc h p hp
    rw [calcMaxLoop, dif_pos (by omega : min (n - idx) 1000 = 0)] at hp
    cases hp
  | succ k ih =>
    intro idx acc h p hp
    rw [calcMaxLoop] at hp
    by_cases h0 : min (n - idx) 1000 = 0
    · rw [dif_pos h0] at hp
      cases hp
    · rw [dif_neg h0] at hp
      simp only [List.mem_cons] at hp
      rcases hp with hp | hp
      · subst hp
        exact min_le_right _ _
      · exact ih (idx + min (n - idx) 1000) _ (by omega) p hp

/-! Claim theorems. -/

/-- C8: when the needed data is unavailable the accessors return 0 copied
elements (and touch no buffer entry) without raising an error: the
per-layer-interface geometry, per-volume scalar and per-volume vector
accessors whenever the timestep index is not less than the timestep count,
and the per-face level count, per-layer-interface geometry and
face-to-volume accessors whenever the corresponding on-disk array is
absent (negative variable identifier). -/
theorem c8_theorem (d : TuflowFVDataset3D) (indexStart count : Nat) :
    (d.mTimesteps ≤ d.mTs → d.verticalLevelData indexStart count = (0, [])) ∧
    (d.mTimesteps ≤ d.mTs → d.scalarVolumesData indexStart count = (0, [])) ∧
    (d.mTimesteps ≤ d.mTs → d.vectorVolumesData indexStart count = (0, [])) ∧
    (d.mNcidVerticalLevels < 0 → d.verticalLevelCountData indexStart count = (0, [])) ∧
    (d.mNcidVerticalLevelsZ < 0 → d.verticalLevelData indexStart count = (0, [])) ∧
    (d.mNcid2DTo3D < 0 → d.faceToVolumeData indexStart count = (0, [])) := by
  refine ⟨fun h => ?_, fun h => ?_, fun h => ?_, fun h => ?_, fun h => ?_, fun h => ?_⟩ <;>
    simp only [TuflowFVDataset3D.verticalLevelData, TuflowFVDataset3D.scalarVolumesData,
      TuflowFVDataset3D.vectorVolumesData, TuflowFVDataset3D.verticalLevelCountData,
      TuflowFVDataset3D.faceToVolumeData] <;>
    split_ifs <;> rfl

/-- C8 witness: the layering dataset with timestep index 7 of 1 returns
nothing, and the dataset with absent arrays returns nothing. -/
theorem c8_witness :
    cds8.verticalLevelData 0 5 = (0, []) ∧
    cdsAbsent.verticalLevelCountData 0 2 = (0, []) ∧
    cdsAbsent.faceToVolumeData 0 2 = (0, []) :=
  ⟨(c8_theorem cds8 0 5).1 (by decide),
   (c8_theorem cdsAbsent 0 2).2.2.2.1 (by decide),
   (c8_theorem cdsAbsent 0 2).2.2.2.2.2 (by decide)⟩

/-- C9: the active-volume flags accessor writes the bytewise-one fill
value (nonzero) for every requested volume, returns the requested count,
and its result does not depend on the dataset state at all — in particular
not on any on-disk active-flag array, which it never reads. -/
theorem c9_theorem (d : TuflowFVDataset3D) (indexStart count : Nat) :
    d.activeVolumesData indexStart count = (count, List.replicate count memsetOneInt) ∧
    (∀ v ∈ (d.activeVolumesData indexStart count).2, v ≠ 0) ∧
    (∀ dOther : TuflowFVDataset3D, d.activeVolumesData indexStart count =
      dOther.activeVolumesData indexStart count) := by
  refine ⟨rfl, ?_, fun _ => rfl⟩
  intro v hv
  have hv2 : v = memsetOneInt := List.eq_of_mem_replicate hv
  rw [hv2]
  decide

/-- C9 witness: a concrete call over the layering dataset. -/
theorem c9_witness :
    cds3.activeVolumesData 4 2 = (2, List.replicate 2 memsetOneInt) :=
  (c9_theorem cds3 4 2).1

/-- C2 counterexample: the claim extends the pagination contract to the
active-volume flags accessor; on the dataset with 2 volumes, present
active array and in-range timestep, the call with `indexStart = 5 ≥ 2`
returns 3, not 0. -/
theorem c2_counterexample :
    cds2.mVolumesCount = 2 ∧ 0 ≤ cds2.mNcidActive2D ∧ cds2.mTs < cds2.mTimesteps ∧
    (cds2.activeVolumesData 5 3).1 = 3 := by
  decide

/-- C2 (amended): the pagination contract — `min( count, extent − start )`
elements for `indexStart < extent`, 0 for `indexStart ≥ extent`, no error —
holds for the five data accessors (with extent the face count, the
stacked-layer-entry count or the volumes count), while the active-volume
flags accessor returns the requested count unconditionally. -/
theorem c2_theorem (d : TuflowFVDataset3D) (indexStart count : Nat) :
    (0 ≤ d.mNcidVerticalLevels →
      (d.verticalLevelCountData indexStart count).1 =
        if indexStart < d.mFacesCount then min count (d.mFacesCount - indexStart) else 0) ∧
    (0 ≤ d.mNcidVerticalLevelsZ → d.mTs < d.mTimesteps →
      (d.verticalLevelData indexStart count).1 =
        if indexStart < d.mLevelFacesCount then min count (d.mLevelFacesCount - indexStart) else 0) ∧
    (0 ≤ d.mNcid2DTo3D →
      (d.faceToVolumeData indexStart count).1 =
        if indexStart < d.mFacesCount then min count (d.mFacesCount - indexStart) else 0) ∧
    (d.mTs < d.mTimesteps →
      (d.scalarVolumesData indexStart count).1 =
        if indexStart < d.mVolumesCount then min count (d.mVolumesCount - indexStart) else 0) ∧
    (d.mTs < d.mTimesteps →
      (d.vectorVolumesData indexStart count).1 =
        if indexStart < d.mVolumesCount then min count (d.mVolumesCount - indexStart) else 0) ∧
    (d.activeVolumesData indexStart count).1 = count := by
  refine ⟨fun h1 => ?_, fun h1 h2 => ?_, fun h1 => ?_, fun h1 => ?_, fun h1 => ?_, rfl⟩ <;>
    simp only [TuflowFVDataset3D.verticalLevelCountData, TuflowFVDataset3D.verticalLevelData,
      TuflowFVDataset3D.faceToVolumeData, TuflowFVDataset3D.scalarVolumesData,
      TuflowFVDataset3D.vectorVolumesData] <;>
    split_ifs <;> first | rfl | omega

/-- C2 witness: concrete pagination over the layering dataset with all
arrays present and timestep in range. -/
theorem c2_witness :
    (cds3.verticalLevelCountData 1 5).1 =
      (if 1 < cds3.mFacesCount then min 5 (cds3.mFacesCount - 1) else 0) ∧
    (cds3.scalarVolumesData 9 4).1 =
      (if 9 < cds3.mVolumesCount then min 4 (cds3.mVolumesCount - 9) else 0) :=
  ⟨(c2_theorem cds3 1 5).1 (by decide),
   (c2_theorem cds3 9 4).2.2.2.1 (by decide)⟩

/-- C3 counterexample: with face count 3 and on-disk face-to-volume array
`[1, 1, 2, 3, 3, 3]`, a read over the full range does not return the six
values `[0, 0, 1, 2, 2, 2]` the claim predicts — the accessor is bounded by
the face count. -/
theorem c3_counterexample :
    cds3.mFacesCount = 3 ∧ cds3.mVolumesCount = 6 ∧
    cds3.mNcFile.intArr cds3.mNcid2DTo3D = [1, 1, 2, 3, 3, 3] ∧
    (cds3.faceToVolumeData 0 6).2 ≠ [0, 0, 1, 2, 2, 2] ∧
    (cds3.faceToVolumeData 0 3).2 ≠ [0, 0, 1, 2, 2, 2] := by
  decide

/-- C3 (amended): every element the face-to-volume accessor copies is the
on-disk 1-based value minus 1; on the concrete scenario (face count 3,
volumes count 6, on-disk array `[1, 1, 2, 3, 3, 3]`) a read over the full
range is bounded by the face count and returns `[0, 0, 1]`. -/
theorem c3_theorem :
    (∀ (d : TuflowFVDataset3D) (indexStart count : Nat),
      0 ≤ d.mNcid2DTo3D → indexStart < d.mFacesCount → 1 ≤ count →
      (d.faceToVolumeData indexStart count).2 =
        (d.mNcFile.readIntArr d.mNcid2DTo3D indexStart
            (min (d.mFacesCount - indexStart) count)).map (fun e => e - 1)) ∧
    cds3.faceToVolumeData 0 6 = (3, [0, 0, 1]) ∧
    cds3.faceToVolumeData 0 3 = (3, [0, 0, 1]) := by
  refine ⟨fun d indexStart count h1 h2 h3 => ?_, by decide, by decide⟩
  simp only [TuflowFVDataset3D.faceToVolumeData]
  split_ifs <;> first | rfl | omega

/-- C3 witness: the round-trip equality applied to the concrete scenario. -/
theorem c3_witness :
    (cds3.faceToVolumeData 0 6).2 =
      (cds3.mNcFile.readIntArr cds3.mNcid2DTo3D 0
          (min (cds3.mFacesCount - 0) 6)).map (fun e => e - 1) :=
  c3_theorem.1 cds3 0 6 (by decide) (by decide) (by decide)

/-- C5: the code resolver agrees with the claim description on every
label — empty label falls back to the raw variable identifier as a scalar
group, the four statistic prefixes are stripped in sequence with the
matching suffix appended, and an `x_` / `y_` remainder marks the vector
component with the prefix dropped; in particular the label
`maximum value of Velocity` resolves to the scalar group
`Velocity/Maximums`. -/
theorem applyStatRule_eq (s pre suf : CppString) :
    (if mdalStartsWith s pre then mdalStripPre s pre ++ suf else s) =
      applyStatRule s (pre, suf) := by
  simp only [mdalStartsWith, mdalStripPre, applyStatRule]
  by_cases h : pre.isPrefixOf s <;> simp [h]

theorem triageVector_eq (t : CppString) :
    (if mdalStartsWith t (strLit "x_") then (mdalStripPre t (strLit "x_"), true, true)
     else if mdalStartsWith t (strLit "y_") then (mdalStripPre t (strLit "y_"), true, false)
     else (t, false, true)) =
    (if (strLit "x_").isPrefixOf t then (t.drop (strLit "x_").length, true, true)
     else if (strLit "y_").isPrefixOf t then (t.drop (strLit "y_").length, true, false)
     else (t, false, true)) := by
  simp only [mdalStartsWith, mdalStripPre]
  by_cases hx : (strLit "x_").isPrefixOf t <;> by_cases hy : (strLit "y_").isPrefixOf t <;>
    simp [hx, hy]

/-- C5: the code resolver agrees with the claim description on every
label — empty label falls back to the raw variable identifier as a scalar
group, the four statistic prefixes are stripped in sequence with the
matching suffix appended, and an `x_` / `y_` remainder marks the vector
component with the prefix dropped; in particular the label
`maximum value of Velocity` resolves to the scalar group
`Velocity/Maximums`. -/
theorem c5_theorem :
    (∀ variableName longName : CppString,
      parseNetCDFVariableMetadata variableName longName =
        claimResolveLabel variableName longName) ∧
    parseNetCDFVariableMetadata (strLit "V") (strLit "maximum value of Velocity") =
      (strLit "Velocity/Maximums", false, true) := by
  constructor
  · intro variableName longName
    by_cases h0 : longName = []
    · simp [parseNetCDFVariableMetadata, claimResolveLabel, h0]
    · simp only [parseNetCDFVariableMetadata, claimResolveLabel, if_neg h0, statRules,
        List.foldl_cons, List.foldl_nil]
      rw [applyStatRule_eq, applyStatRule_eq, applyStatRule_eq, applyStatRule_eq]
      exact triageVector_eq _
  · decide

theorem buildFaceIdxs_some (vertexCount : Nat) (hvc : (vertexCount : Int) ≤ 2 ^ 64) :
    ∀ slots : List Int, (∀ e ∈ slots, 1 ≤ e ∧ e ≤ (vertexCount : Int)) →
      buildFaceIdxs vertexCount slots = some (slots.map (fun v => (v - 1).toNat)) := by
  intro slots
  induction slots with
  | nil => intro _; rfl
  | cons v rest ih =>
    intro h
    have hv := h v (List.mem_cons_self v rest)
    have hcast : sizeTCast (v - 1) = (v - 1).toNat := by
      simp only [sizeTCast]
      congr 1
      exact Int.emod_eq_of_lt (by omega) (by omega)
    have hlt : sizeTCast (v - 1) < vertexCount := by rw [hcast]; omega
    simp only [buildFaceIdxs, if_pos hlt,
      ih (fun e he => h e (List.mem_cons_of_mem v he))]
    simp [hcast]

theorem buildFaceIdxs_none (vertexCount : Nat) :
    ∀ slots : List Int, (∃ e ∈ slots, ¬ sizeTCast (e - 1) < vertexCount) →
      buildFaceIdxs vertexCount slots = none := by
  intro slots
  induction slots with
  | nil =>
    intro h
    rcases h with ⟨e, he, _⟩
    cases he
  | cons v rest ih =>
    intro h
    rcases h with ⟨e, he, hbad⟩
    rcases List.mem_cons.mp he with h1 | h1
    · subst h1
      simp only [buildFaceIdxs, if_neg hbad]
    · by_cases hv : sizeTCast (v - 1) < vertexCount
      · simp only [buildFaceIdxs, if_pos hv, ih ⟨e, h1, hbad⟩]
        rfl
      · simp only [buildFaceIdxs, if_neg hv]

theorem populateFacesAux_some (vertexCount verticesInFace : Nat) (conn : List Int)
    (hvc : (vertexCount : Int) ≤ 2 ^ 64) :
    ∀ (counts : List Int) (i : Nat),
      (∀ (j : Nat) (hj : j < counts.length),
        ∀ e ∈ claimFaceWindow verticesInFace conn (i + j) (counts.get ⟨j, hj⟩),
          1 ≤ e ∧ e ≤ (vertexCount : Int)) →
      populateFacesAux vertexCount verticesInFace conn i counts =
        some (claimFacesAux verticesInFace conn i counts) := by
  intro counts
  induction counts with
  | nil => intro i _; rfl
  | cons cnt rest ih =>
    intro i h
    have h0 : ∀ e ∈ claimFaceWindow verticesInFace conn i cnt,
        1 ≤ e ∧ e ≤ (vertexCount : Int) := by
      have := h 0 (by simp)
      simpa using this
    have hrest : ∀ (j : Nat) (hj : j < rest.length),
        ∀ e ∈ claimFaceWindow verticesInFace conn ((i + 1) + j) (rest.get ⟨j, hj⟩),
          1 ≤ e ∧ e ≤ (vertexCount : Int) := by
      intro j hj e he
      have hj2 : j + 1 < (cnt :: rest).length := by simpa using Nat.succ_lt_succ hj
      have hg : (cnt :: rest).get ⟨j + 1, hj2⟩ = rest.get ⟨j, hj⟩ := rfl
      have hidx : i + (j + 1) = (i + 1) + j := by omega
      exact h (j + 1) hj2 e (by rw [hg, hidx]; exact he)
    simp only [populateFacesAux]
    rw [show (conn.drop (verticesInFace * i)).take (sizeTCast cnt) =
      claimFaceWindow verticesInFace conn i cnt from rfl]
    rw [buildFaceIdxs_some vertexCount hvc _ h0, ih (i + 1) hrest]
    rfl

theorem populateFacesAux_none (vertexCount verticesInFace : Nat) (conn : List Int) :
    ∀ (counts : List Int) (i j : Nat) (hj : j < counts.length),
      (∃ e ∈ claimFaceWindow verticesInFace conn (i + j) (counts.get ⟨j, hj⟩),
        ¬ sizeTCast (e - 1) < vertexCount) →
      populateFacesAux vertexCount verticesInFace conn i counts = none := by
  intro counts
  induction counts with
  | nil =>
    intro i j hj
    exact absurd hj (by simp)
  | cons cnt rest ih =>
    intro i j hj hex
    cases j with
    | zero =>
      simp only [populateFacesAux]
      rw [show (conn.drop (verticesInFace * i)).take (sizeTCast cnt) =
        claimFaceWindow verticesInFace conn i cnt from rfl]
      rw [buildFaceIdxs_none vertexCount _ (by simpa using hex)]
    | succ j =>
      have hj2 : j < rest.length := by simpa using Nat.lt_of_succ_lt_succ hj
      have hex2 : ∃ e ∈ claimFaceWindow verticesInFace conn ((i + 1) + j)
          (rest.get ⟨j, hj2⟩), ¬ sizeTCast (e - 1) < vertexCount := by
        rcases hex with ⟨e, he, hbad⟩
        refine ⟨e, ?_, hbad⟩
        have hg : (cnt :: rest).get ⟨j + 1, hj⟩ = rest.get ⟨j, hj2⟩ := rfl
        have hidx : i + (j + 1) = (i + 1) + j := by omega
        rw [hg, hidx] at he
        exact he
      simp only [populateFacesAux]
      cases hb : buildFaceIdxs vertexCount
          ((conn.drop (verticesInFace * i)).take (sizeTCast cnt)) with
      | none => rfl
      | some face =>
        rw [ih (i + 1) j hj2 hex2]
        rfl

/-- C4: `populateFaces` takes the first N slots of each face stride window
(N = the per-face vertex count entry), converts every 1-based on-disk
index to a 0-based one, and treats an out-of-range converted index as a
fatal load error (`none`) rather than a silent clamp; on the concrete
scenario with vertex count 4 and on-disk faces `[[1, 2, 3], [1, 3, 4]]`
it produces `[[0, 1, 2], [0, 2, 3]]`. -/
theorem c4_theorem (vertexCount faceCount verticesInFace : Nat)
    (conn counts : List Int) :
    ((vertexCount : Int) ≤ 2 ^ 64 →
      (∀ (j : Nat) (hj : j < (counts.take faceCount).length),
        ∀ e ∈ claimFaceWindow verticesInFace conn j ((counts.take faceCount).get ⟨j, hj⟩),
          1 ≤ e ∧ e ≤ (vertexCount : Int)) →
      populateFaces vertexCount faceCount verticesInFace conn counts =
        some (claimFacesAux verticesInFace conn 0 (counts.take faceCount))) ∧
    (∀ (j : Nat) (hj : j < (counts.take faceCount).length),
      (∃ e ∈ claimFaceWindow verticesInFace conn j ((counts.take faceCount).get ⟨j, hj⟩),
        ¬ sizeTCast (e - 1) < vertexCount) →
      populateFaces vertexCount faceCount verticesInFace conn counts = none) ∧
    populateFaces 4 2 3 [1, 2, 3, 1, 3, 4] [3, 3] = some [[0, 1, 2], [0, 2, 3]] := by
  refine ⟨fun hvc h => ?_, fun j hj hex => ?_, by decide⟩
  · apply populateFacesAux_some vertexCount verticesInFace conn hvc (counts.take faceCount) 0
    intro j hj e he
    exact h j hj e (by simpa using he)
  · apply populateFacesAux_none vertexCount verticesInFace conn (counts.take faceCount) 0 j hj
    simpa using hex

/-- C4 witness: the concrete scenario through the general success and
fatality statements. -/
theorem c4_witness :
    populateFaces 4 2 3 [1, 2, 3, 1, 3, 4] [3, 3] =
      some (claimFacesAux 3 [1, 2, 3, 1, 3, 4] 0 ([3, 3].take 2)) ∧
    populateFaces 4 2 3 [1, 2, 99, 1, 3, 4] [3, 3] = none :=
  ⟨(c4_theorem 4 2 3 [1, 2, 3, 1, 3, 4] [3, 3]).1 (by decide) (by decide),
   (c4_theorem 4 2 3 [1, 2, 99, 1, 3, 4] [3, 3]).2.1 0 (by decide) (by decide)⟩

theorem calculateMaximumLevelCount_noop (st : DriverTuflowFV)
    (h : 0 ≤ st.mMaximumLevelsCount) : calculateMaximumLevelCount st = (st, []) := by
  rw [calculateMaximumLevelCount, if_neg (by omega)]

theorem calculateMaximumLevelCount_nonneg (st : DriverTuflowFV) :
    0 ≤ (calculateMaximumLevelCount st).1.mMaximumLevelsCount := by
  rw [calculateMaximumLevelCount]
  by_cases h : st.mMaximumLevelsCount < 0
  · rw [if_pos h]
    by_cases h2 : st.mNcFile.arrId "NL" < 0
    · rw [if_pos h2]
    · rw [if_neg h2]
      have := calcMaxLoop_le st.mNcFile (st.mNcFile.arrId "NL") st.facesCount
        st.facesCount 0 0 (by omega)
      simpa using this
  · rw [if_neg h]
    simp only []
    omega

/-- C6: the mesh-wide maximum-levels-count is computed at most once — when
the memoized value holds the negative sentinel the layer-count array is
streamed in chunks of at most 1000 entries and its running maximum is
memoized (the maximum entry of the array when the array is nonempty and
holds the nonnegative level counts), zero is memoized when the array is
absent, and a second call issues no reads and leaves the state unchanged. -/
theorem c6_theorem (st : DriverTuflowFV) :
    (0 ≤ st.mMaximumLevelsCount → calculateMaximumLevelCount st = (st, [])) ∧
    (st.mMaximumLevelsCount < 0 → st.mNcFile.arrId "NL" < 0 →
      calculateMaximumLevelCount st = ({ st with mMaximumLevelsCount := 0 }, [])) ∧
    (st.mMaximumLevelsCount < 0 → 0 ≤ st.mNcFile.arrId "NL" →
      (st.mNcFile.intArr (st.mNcFile.arrId "NL")).length = st.facesCount →
      ((calculateMaximumLevelCount st).1.mMaximumLevelsCount =
          (st.mNcFile.intArr (st.mNcFile.arrId "NL")).foldl max 0 ∧
        (∀ p ∈ (calculateMaximumLevelCount st).2, p.2 ≤ 1000) ∧
        (st.mNcFile.intArr (st.mNcFile.arrId "NL") ≠ [] →
          (∀ e ∈ st.mNcFile.intArr (st.mNcFile.arrId "NL"), 0 ≤ e) →
          ((calculateMaximumLevelCount st).1.mMaximumLevelsCount ∈
              st.mNcFile.intArr (st.mNcFile.arrId "NL") ∧
            ∀ e ∈ st.mNcFile.intArr (st.mNcFile.arrId "NL"),
              e ≤ (calculateMaximumLevelCount st).1.mMaximumLevelsCount)))) ∧
    calculateMaximumLevelCount (calculateMaximumLevelCount st).1 =
      ((calculateMaximumLevelCount st).1, []) := by
  refine ⟨fun h => calculateMaximumLevelCount_noop st h, fun h1 h2 => ?_, fun h1 h2 hlen => ?_,
    calculateMaximumLevelCount_noop _ (calculateMaximumLevelCount_nonneg st)⟩
  · rw [calculateMaximumLevelCount, if_pos h1, if_pos h2]
  · have hval : (calculateMaximumLevelCount st).1.mMaximumLevelsCount =
        (st.mNcFile.intArr (st.mNcFile.arrId "NL")).foldl max 0 := by
      rw [calculateMaximumLevelCount, if_pos h1, if_neg (by omega)]
      have := calcMaxLoop_fst st.mNcFile (st.mNcFile.arrId "NL") st.facesCount hlen
        st.facesCount 0 0 (by omega)
      simpa using this
    refine ⟨hval, ?_, fun hne hnn => ?_⟩
    · intro p hp
      rw [calculateMaximumLevelCount, if_pos h1, if_neg (by omega)] at hp
      exact calcMaxLoop_reads st.mNcFile (st.mNcFile.arrId "NL") st.facesCount
        st.facesCount 0 0 (by omega) p hp
    · rw [hval]
      constructor
      · rcases foldl_max_eq_or_mem (st.mNcFile.intArr (st.mNcFile.arrId "NL")) 0 with hm | hm
        · rcases List.exists_cons_of_ne_nil hne with ⟨a, l, harr⟩
          have ha0 : 0 ≤ a := hnn a (by rw [harr]; exact List.mem_cons_self a l)
          have hale : a ≤ (st.mNcFile.intArr (st.mNcFile.arrId "NL")).foldl max 0 :=
            mem_le_foldl_max _ 0 a (by rw [harr]; exact List.mem_cons_self a l)
          rw [hm] at hale
          have ha : a = 0 := by omega
          rw [hm, ← ha, harr]
          exact List.mem_cons_self a l
        · exact hm
      · intro e he
        exact mem_le_foldl_max _ 0 e he

/-- C6 witness: the concrete layering scenario (sentinel `-1`, layer
counts `[2, 1, 3]`) computed once and then left untouched. -/
theorem c6_witness :
    (calculateMaximumLevelCount st6).1.mMaximumLevelsCount =
      (st6.mNcFile.intArr (st6.mNcFile.arrId "NL")).foldl max 0 ∧
    calculateMaximumLevelCount (calculateMaximumLevelCount st6).1 =
      ((calculateMaximumLevelCount st6).1, []) := by
  have h := c6_theorem st6
  exact ⟨(h.2.2.1 (by decide) (by decide) (by decide)).1, h.2.2.2⟩

/-- C7: a dataset group accepts appended datasets only while its edit-mode
flag is set. Appending to a group outside edit mode yields a null handle,
the incompatible-dataset status and an unchanged group (in particular an
unchanged dataset list); closing edit mode on an editing group stores the
statistics recomputed from the still-editing group state, clears the
edit-mode flag and invokes the driver persist operation (when a driver
with write capability is registered), and afterwards every append attempt
is rejected the same way. -/
theorem c7_theorem (drivers : String → Option Driver)
    (calcStats : DatasetGroup → Statistics) (g : DatasetGroup)
    (time : Int) (vs : List Int) (active : Option (List Int)) :
    (g.isInEditMode = false →
      MDAL_G_addDataset drivers g time (some vs) active =
        (none, some .Err_IncompatibleDataset, g)) ∧
    (g.isInEditMode = true →
      ∀ dr, drivers g.driverName = some dr →
        dr.hasWriteDatasetCapability g.dataLocation = true →
        ((MDAL_G_closeEditMode drivers calcStats g).1.statistics = calcStats g ∧
          (MDAL_G_closeEditMode drivers calcStats g).1.isInEditMode = false ∧
          (MDAL_G_closeEditMode drivers calcStats g).2.2 = true ∧
          ∀ (drivers2 : String → Option Driver) (t2 : Int) (vs2 : List Int)
            (a2 : Option (List Int)),
            MDAL_G_addDataset drivers2 (MDAL_G_closeEditMode drivers calcStats g).1
                t2 (some vs2) a2 =
              (none, some .Err_IncompatibleDataset,
                (MDAL_G_closeEditMode drivers calcStats g).1))) := by
  constructor
  · intro h
    simp [MDAL_G_addDataset, h]
  · intro h dr hdr hcap
    refine ⟨?_, ?_, ?_, fun drivers2 t2 vs2 a2 => ?_⟩ <;>
      simp [MDAL_G_closeEditMode, MDAL_G_addDataset, h, hdr, hcap]

/-- C7 witness: the concrete editing group `g0` closed once, after which a
concrete append attempt is rejected, and the concrete closed group
rejecting an append directly. -/
theorem c7_witness :
    MDAL_G_addDataset drivers0 g0Closed 2 (some [4, 4]) none =
      (none, some .Err_IncompatibleDataset, g0Closed) ∧
    (MDAL_G_closeEditMode drivers0 calcStats0 g0).1.statistics = calcStats0 g0 ∧
    (MDAL_G_closeEditMode drivers0 calcStats0 g0).1.isInEditMode = false ∧
    (MDAL_G_closeEditMode drivers0 calcStats0 g0).2.2 = true ∧
    MDAL_G_addDataset drivers0 (MDAL_G_closeEditMode drivers0 calcStats0 g0).1
        1 (some [5]) none =
      (none, some .Err_IncompatibleDataset,
        (MDAL_G_closeEditMode drivers0 calcStats0 g0).1) := by
  have h1 := (c7_theorem drivers0 calcStats0 g0Closed 2 [4, 4] none).1 (by decide)
  have h2 := (c7_theorem drivers0 calcStats0 g0 0 [] none).2 (by decide) drv0 rfl rfl
  exact ⟨h1, h2.1, h2.2.1, h2.2.2.1, h2.2.2.2 drivers0 1 [5] none⟩

/-- C1 (amended): `MDAL_D_data` rejects — returning 0, setting the
incompatible-dataset status and leaving the buffer untouched — exactly
when the condition of the claim holds (scalar/vector disagreement,
location disagreement, or a window outside the expected total) or, for the
active-flags kind, the dataset lacks the active-flag capability; otherwise
it delegates to the matching accessor and returns the count the accessor
reports together with the values the accessor writes. -/
theorem c1_theorem (d : Dataset) (dataType : MDAL_DataType) (indexStart count : Nat) :
    MDAL_D_data d indexStart count dataType =
      if amendedReject d dataType indexStart count then
        ⟨0, some .Err_IncompatibleDataset, []⟩
      else
        ⟨((delegate d dataType indexStart count).1 : Int), none,
          (delegate d dataType indexStart count).2⟩ := by
  obtain ⟨gs, loc, mf, valc, volc, saf, a1, a2, a3, a4, a5, a6, a7, a8⟩ := d
  cases dataType <;> cases gs <;> cases loc <;> cases saf <;>
    simp [MDAL_D_data, dispatchValuesCount, amendedReject, claimReject, claimKindScalar,
      claimLocationOk, claimTotal, delegate] <;>
    split_ifs <;> first | rfl | omega

/-- C1 counterexample: for the active-flags kind on a dataset without the
active-flag capability, none of the rejection conditions the claim lists
holds for the window `( 0, 1 )` — so the claim predicts delegation to the
active accessor (which reports 1 written element) — yet the dispatcher
rejects with the incompatible-dataset status. -/
theorem c1_counterexample :
    claimReject cdActive .ACTIVE_INTEGER 0 1 = false ∧
    MDAL_D_data cdActive 0 1 .ACTIVE_INTEGER = ⟨0, some .Err_IncompatibleDataset, []⟩ ∧
    cdActive.activeData 0 1 = (1, [7]) := by
  decide

/-- C10 (amended): for a vector-valued 3D TUFLOW FV dataset the dispatcher
validates the vector-on-volumes window against twice the volumes count,
while the delegated accessor bounds `indexStart` by the undoubled volumes
count and counts (x, y) pairs: with the timestep in range, for
`indexStart < volumesCount` it returns `min( count, volumesCount −
indexStart )` and writes two doubles per returned unit, and for every
window with `volumesCount ≤ indexStart < 2 · volumesCount` and
`indexStart + count ≤ 2 · volumesCount` the validation passes (no status
is set) yet the call returns 0 and writes nothing. -/
theorem c10_theorem (d : TuflowFVDataset3D) (indexStart count : Nat) :
    (dispatchValuesCount (d.toDataset false) .VECTOR_2D_VOLUMES_DOUBLE =
      some (2 * d.mVolumesCount)) ∧
    (d.mTs < d.mTimesteps → indexStart < d.mVolumesCount →
      ((d.vectorVolumesData indexStart count).1 =
          min count (d.mVolumesCount - indexStart) ∧
        (d.vectorVolumesData indexStart count).2 =
          interleave
            (d.mNcFile.readDoubleArrTs d.mNcidX d.mTs indexStart
              (min (d.mVolumesCount - indexStart) count))
            (d.mNcFile.readDoubleArrTs d.mNcidY d.mTs indexStart
              (min (d.mVolumesCount - indexStart) count)) ∧
        ((d.mNcFile.dblArr d.mNcidX d.mTs).length = d.mVolumesCount →
          (d.mNcFile.dblArr d.mNcidY d.mTs).length = d.mVolumesCount →
          (d.vectorVolumesData indexStart count).2.length =
            2 * (d.vectorVolumesData indexStart count).1))) ∧
    (d.mVolumesCount ≤ indexStart → indexStart < 2 * d.mVolumesCount →
      indexStart + count ≤ 2 * d.mVolumesCount →
      MDAL_D_data (d.toDataset false) indexStart count .VECTOR_2D_VOLUMES_DOUBLE =
        ⟨0, none, []⟩) := by
  have hd : dispatchValuesCount (d.toDataset false) .VECTOR_2D_VOLUMES_DOUBLE =
      some (2 * d.mVolumesCount) := by
    simp [dispatchValuesCount, TuflowFVDataset3D.toDataset]
  refine ⟨hd, fun hts hlt => ?_, fun h1 h2 h3 => ?_⟩
  · by_cases hc : count < 1
    · have hc0 : count = 0 := by omega
      subst hc0
      refine ⟨?_, ?_, fun _ _ => ?_⟩ <;>
        simp [TuflowFVDataset3D.vectorVolumesData, NetCDFFile.readDoubleArrTs, interleave, hlt]
    · have hcond : ¬ (count < 1 ∨ indexStart ≥ d.mVolumesCount) := by
        push_neg
        exact ⟨by omega, by omega⟩
      simp only [TuflowFVDataset3D.vectorVolumesData, if_neg hcond,
        if_neg (by omega : ¬ d.mTs ≥ d.mTimesteps)]
      refine ⟨by omega, by trivial, fun hx hy => ?_⟩
      rw [interleave_length]
      · simp only [NetCDFFile.readDoubleArrTs, List.length_take, List.length_drop, hx]
        omega
      · simp only [NetCDFFile.readDoubleArrTs, List.length_take, List.length_drop, hx, hy]
  · have hacc : d.vectorVolumesData indexStart count = (0, []) := by
      rw [TuflowFVDataset3D.vectorVolumesData,
        if_pos (Or.inr (by omega : indexStart ≥ d.mVolumesCount))]
    simp only [MDAL_D_data, hd]
    rw [if_neg (by omega : ¬ 2 * d.mVolumesCount ≤ indexStart),
      if_neg (by omega : ¬ 2 * d.mVolumesCount < indexStart + count)]
    simp only [delegate, TuflowFVDataset3D.toDataset, hacc]
    rfl

/-- C10 counterexample: with one volume, the window `( indexStart = 2,
count = 0 )` satisfies the conditions under which the claim asserts the
validation passes — `volumesCount ≤ indexStart` and `indexStart + count ≤
2 · volumesCount` — yet the dispatcher rejects it (the status is set and
nothing is delegated), because validation also requires `indexStart <
2 · volumesCount`. -/
theorem c10_counterexample :
    cds10.mVolumesCount = 1 ∧ cds10.mTs < cds10.mTimesteps ∧
    MDAL_D_data (cds10.toDataset false) 2 0 .VECTOR_2D_VOLUMES_DOUBLE =
      ⟨0, some .Err_IncompatibleDataset, []⟩ := by
  decide

/-- C10 witness: the concrete layering dataset (6 volumes): a pair read at
`indexStart = 4` returns 2 pairs and writes 4 doubles, and the window
`( 7, 3 )` passes validation against 12 yet returns 0. -/
theorem c10_witness :
    ((cds3.vectorVolumesData 4 9).1 = min 9 (cds3.mVolumesCount - 4) ∧
      (cds3.vectorVolumesData 4 9).2.length = 2 * (cds3.vectorVolumesData 4 9).1) ∧
    MDAL_D_data (cds3.toDataset false) 7 3 .VECTOR_2D_VOLUMES_DOUBLE = ⟨0, none, []⟩ := by
  have h := c10_theorem cds3 4 9
  have h2 := (h.2.1 (by decide) (by decide))
  exact ⟨⟨h2.1, h2.2.2 (by decide) (by decide)⟩,
    (c10_theorem cds3 7 3).2.2 (by decide) (by decide) (by decide)⟩

end MDALSpec
